import Mathlib

/-!
Verification model of the GPU monitor bot (`main.py`).

The program keeps three Python dicts — `subscriptions : Dict[str, List[int]]`,
`prev_states : Dict[str, bool]` and `gpu_display_names : Dict[str, str]` — and
runs a poll loop (`poller_task`) that fetches a JSON list of GPU elements,
rebuilds the current-state dict, detects busy→available transitions against
`prev_states`, notifies subscribers, and replaces `prev_states`.

Modelling choices:
* A Python dict is an association list with unique keys; assignment updates
  the value in place for an existing key and appends a fresh key at the end,
  matching insertion-ordered Python dicts.
* Parsed JSON values are the inductive `Json`.  Keys of `prev_states` and
  `gpu_display_names` come from `g.get("name")`, which can be any JSON value,
  so those dicts are keyed by `Json`; `subscriptions` keys come from JSON
  object keys and callback data, which are strings.
* Python exceptions are `Except`/`Option`; a `try/except` around a block is a
  `match` on the block's result.
-/

set_option autoImplicit false

namespace GpuMonitor

/-- A parsed JSON value, as produced by Python's `json` module / `resp.json()`.
Numbers are modelled as integers (the payloads at stake carry ids and flags;
floats are outside the modelled scope). -/
inductive Json where
  | null : Json
  | bool (b : Bool) : Json
  | num (n : Int) : Json
  | str (s : String) : Json
  | arr (xs : List Json) : Json
  | obj (fields : List (String × Json)) : Json

mutual

def Json.decEq : (a b : Json) → Decidable (a = b)
  | .null, .null => isTrue rfl
  | .null, .bool _ => isFalse (fun h => Json.noConfusion h)
  | .null, .num _ => isFalse (fun h => Json.noConfusion h)
  | .null, .str _ => isFalse (fun h => Json.noConfusion h)
  | .null, .arr _ => isFalse (fun h => Json.noConfusion h)
  | .null, .obj _ => isFalse (fun h => Json.noConfusion h)
  | .bool _, .null => isFalse (fun h => Json.noConfusion h)
  | .bool a, .bool b =>
      if h : a = b then isTrue (h ▸ rfl)
      else isFalse (fun hh => h (Json.bool.inj hh))
  | .bool _, .num _ => isFalse (fun h => Json.noConfusion h)
  | .bool _, .str _ => isFalse (fun h => Json.noConfusion h)
  | .bool _, .arr _ => isFalse (fun h => Json.noConfusion h)
  | .bool _, .obj _ => isFalse (fun h => Json.noConfusion h)
  | .num _, .null => isFalse (fun h => Json.noConfusion h)
  | .num _, .bool _ => isFalse (fun h => Json.noConfusion h)
  | .num a, .num b =>
      if h : a = b then isTrue (h ▸ rfl)
      else isFalse (fun hh => h (Json.num.inj hh))
  | .num _, .str _ => isFalse (fun h => Json.noConfusion h)
  | .num _, .arr _ => isFalse (fun h => Json.noConfusion h)
  | .num _, .obj _ => isFalse (fun h => Json.noConfusion h)
  | .str _, .null => isFalse (fun h => Json.noConfusion h)
  | .str _, .bool _ => isFalse (fun h => Json.noConfusion h)
  | .str _, .num _ => isFalse (fun h => Json.noConfusion h)
  | .str a, .str b =>
      if h : a = b then isTrue (h ▸ rfl)
      else isFalse (fun hh => h (Json.str.inj hh))
  | .str _, .arr _ => isFalse (fun h => Json.noConfusion h)
  | .str _, .obj _ => isFalse (fun h => Json.noConfusion h)
  | .arr _, .null => isFalse (fun h => Json.noConfusion h)
  | .arr _, .bool _ => isFalse (fun h => Json.noConfusion h)
  | .arr _, .num _ => isFalse (fun h => Json.noConfusion h)
  | .arr _, .str _ => isFalse (fun h => Json.noConfusion h)
  | .arr xs, .arr ys =>
      match Json.decEqArr xs ys with
      | isTrue h => isTrue (h ▸ rfl)
      | isFalse h => isFalse (fun hh => h (Json.arr.inj hh))
  | .arr _, .obj _ => isFalse (fun h => Json.noConfusion h)
  | .obj _, .null => isFalse (fun h => Json.noConfusion h)
  | .obj _, .bool _ => isFalse (fun h => Json.noConfusion h)
  | .obj _, .num _ => isFalse (fun h => Json.noConfusion h)
  | .obj _, .str _ => isFalse (fun h => Json.noConfusion h)
  | .obj _, .arr _ => isFalse (fun h => Json.noConfusion h)
  | .obj fs, .obj gs =>
      match Json.decEqObj fs gs with
      | isTrue h => isTrue (h ▸ rfl)
      | isFalse h => isFalse (fun hh => h (Json.obj.inj hh))

def Json.decEqArr : (as bs : List Json) → Decidable (as = bs)
  | [], [] => isTrue rfl
  | [], _ :: _ => isFalse (fun h => List.noConfusion h)
  | _ :: _, [] => isFalse (fun h => List.noConfusion h)
  | a :: as, b :: bs =>
      match Json.decEq a b, Json.decEqArr as bs with
      | isTrue h1, isTrue h2 => isTrue (by rw [h1, h2])
      | isFalse h1, _ => isFalse (fun h => h1 (List.cons.inj h).1)
      | _, isFalse h2 => isFalse (fun h => h2 (List.cons.inj h).2)

def Json.decEqObj : (as bs : List (String × Json)) → Decidable (as = bs)
  | [], [] => isTrue rfl
  | [], _ :: _ => isFalse (fun h => List.noConfusion h)
  | _ :: _, [] => isFalse (fun h => List.noConfusion h)
  | (k, v) :: as, (k', v') :: bs =>
      if h0 : k = k' then
        match Json.decEq v v', Json.decEqObj as bs with
        | isTrue h1, isTrue h2 => isTrue (by rw [h0, h1, h2])
        | isFalse h1, _ =>
            isFalse (fun h => h1 (congrArg Prod.snd (List.cons.inj h).1))
        | _, isFalse h2 => isFalse (fun h => h2 (List.cons.inj h).2)
      else isFalse (fun h => h0 (congrArg Prod.fst (List.cons.inj h).1))

end

instance : DecidableEq Json := Json.decEq

/-- Python truthiness of a JSON value: `None`, `False`, `0`, `""`, `[]`, `{}`
are falsy, everything else truthy. -/
def Json.truthy : Json → Bool
  | .null => false
  | .bool b => b
  | .num n => n != 0
  | .str s => s != ""
  | .arr xs => !xs.isEmpty
  | .obj fs => !fs.isEmpty

/-- Whether the value may be used as a Python dict key: lists and dicts are
unhashable (using one as a key raises `TypeError`). -/
def Json.hashable : Json → Bool
  | .arr _ => false
  | .obj _ => false
  | _ => true

section Dict

variable {α : Type} {β : Type} [DecidableEq α]

/-- `d.get(k)` on a Python dict modelled as an association list. -/
def dlookup : List (α × β) → α → Option β
  | [], _ => none
  | (k, v) :: rest, key => if key = k then some v else dlookup rest key

/-- `d[k] = v` on a Python dict: replace the value of an existing key in
place, otherwise append the new key at the end. -/
def dinsert : List (α × β) → α → β → List (α × β)
  | [], k, v => [(k, v)]
  | (k', v') :: rest, k, v =>
      if k = k' then (k', v) :: rest else (k', v') :: dinsert rest k v

/-- `d.pop(k, None)` on a Python dict: drop the entry with the given key. -/
def dremove : List (α × β) → α → List (α × β)
  | [], _ => []
  | (k', v') :: rest, k => if k = k' then rest else (k', v') :: dremove rest k

theorem dlookup_dinsert (m : List (α × β)) (k : α) (v : β) (k' : α) :
    dlookup (dinsert m k v) k' = if k' = k then some v else dlookup m k' := by
  induction m with
  | nil => simp [dinsert, dlookup]
  | cons p rest ih =>
      obtain ⟨pk, pv⟩ := p
      by_cases hk : k = pk
      · subst hk
        by_cases hk' : k' = k <;> simp [dinsert, dlookup, hk']
      · by_cases hk' : k' = pk
        · subst hk'
          simp [dinsert, dlookup, hk, Ne.symm hk]
        · simp [dinsert, dlookup, hk, hk', ih]

theorem mem_dinsert (m : List (α × β)) (k : α) (v : β) (p : α × β)
    (hp : p ∈ dinsert m k v) : p.2 = v ∨ p ∈ m := by
  induction m with
  | nil =>
      simp only [dinsert, List.mem_singleton] at hp
      left; rw [hp]
  | cons q rest ih =>
      obtain ⟨qk, qv⟩ := q
      simp only [dinsert] at hp
      split at hp
      · rcases List.mem_cons.mp hp with h | h
        · left; rw [h]
        · right; exact List.mem_cons_of_mem _ h
      · rcases List.mem_cons.mp hp with h | h
        · right; rw [h]; exact List.mem_cons_self _ _
        · rcases ih h with h' | h'
          · left; exact h'
          · right; exact List.mem_cons_of_mem _ h'

theorem mem_dremove (m : List (α × β)) (k : α) (p : α × β)
    (hp : p ∈ dremove m k) : p ∈ m := by
  induction m with
  | nil => simp [dremove] at hp
  | cons q rest ih =>
      obtain ⟨qk, qv⟩ := q
      simp only [dremove] at hp
      split at hp
      · exact List.mem_cons_of_mem _ hp
      · rcases List.mem_cons.mp hp with h | h
        · rw [h]; exact List.mem_cons_self _ _
        · exact List.mem_cons_of_mem _ (ih h)

theorem dlookup_cons_self (rest : List (α × β)) (k : α) (v : β) :
    dlookup ((k, v) :: rest) k = some v := by
  simp [dlookup]

theorem dlookup_cons_ne (rest : List (α × β)) (k' : α) (v : β) (k : α)
    (h : k ≠ k') : dlookup ((k', v) :: rest) k = dlookup rest k := by
  simp [dlookup, h]

theorem mem_iff_dlookup_of_nodup (m : List (α × β)) (hnd : (m.map Prod.fst).Nodup)
    (k : α) (v : β) : (k, v) ∈ m ↔ dlookup m k = some v := by
  induction m with
  | nil => simp [dlookup]
  | cons q rest ih =>
      obtain ⟨qk, qv⟩ := q
      simp only [List.map_cons, List.nodup_cons] at hnd
      obtain ⟨hq, hrest⟩ := hnd
      by_cases hk : k = qk
      · subst hk
        rw [dlookup_cons_self]
        simp only [List.mem_cons, Prod.mk.injEq, true_and, Option.some.injEq]
        constructor
        · rintro (h' | h')
          · exact h'.symm
          · exact absurd (List.mem_map.mpr ⟨(k, v), h', rfl⟩) hq
        · intro h; left; exact h.symm
      · rw [dlookup_cons_ne rest qk qv k hk]
        simp only [List.mem_cons, Prod.mk.injEq]
        constructor
        · rintro (⟨h', -⟩ | h')
          · exact absurd h' hk
          · exact (ih hrest).mp h'
        · intro h; right; exact (ih hrest).mpr h

end Dict

/-- `fields.get(key)` on a parsed JSON object, with a default for an absent
key (Python `dict.get(key, default)`; plain `.get(key)` defaults to `None`). -/
def jgetD (fields : List (String × Json)) (key : String) (dflt : Json) : Json :=
  (dlookup fields key).getD dflt

/-- The in-memory subscription store `subscriptions : Dict[str, List[int]]`,
mapping a GPU name to the chat ids subscribed to it. -/
abbrev Subs := List (String × List Int)

/-- Python `int(x)` on a JSON value: integers pass through, booleans coerce
to 0/1, digit strings parse; `None`, lists and dicts raise `TypeError`
(`none` here).  Python would also accept strings with surrounding spaces or
signs beyond what `String.toInt?` accepts; those inputs are outside the
modelled scope. -/
def py_int : Json → Option Int
  | .num n => some n
  | .bool b => some (if b then 1 else 0)
  | .str s => s.toInt?
  | _ => none

/-- A Python comprehension `[f(x) for x in l]` over `Option`-valued `f`:
the whole comprehension fails as soon as one element raises. -/
def omapM {α β : Type} (f : α → Option β) : List α → Option (List β)
  | [] => some []
  | a :: as =>
      match f a, omapM f as with
      | some b, some bs => some (b :: bs)
      | _, _ => none

/-- The body of `load_subscriptions`'s `try` block applied to the parsed
JSON file content: `{k: [int(x) for x in v] for k, v in data.items()}`.
`data.items()` requires a dict (anything else raises), and each value must
be a JSON array of int-coercible elements (a non-array value raises inside
the comprehension; Python would iterate a string character-wise, which is
outside the modelled scope and treated as the same load failure). -/
def parse_entry (p : String × Json) : Option (String × List Int) :=
  match p.2 with
  | .arr xs => (omapM py_int xs).map (fun l => (p.1, l))
  | _ => none

def parse_subs : Json → Option Subs
  | .obj fields => omapM parse_entry fields
  | _ => none

/-- `load_subscriptions()`: a missing file returns `{}` directly, and any
exception while reading/parsing/coercing is caught and returns `{}`.
The argument is `none` for a missing or unparseable file, `some j` for a
file whose content parses to the JSON value `j`. -/
def load_subscriptions (file : Option Json) : Subs :=
  match file with
  | none => []
  | some j => (parse_subs j).getD []

/-- `save_subscriptions(subs)`: `json.dump` of the store, i.e. the JSON
object written to `subscriptions.json` when the write succeeds (a write
failure is logged and leaves no defined file content). -/
def save_subscriptions (subs : Subs) : Json :=
  .obj (subs.map (fun p => (p.1, .arr (p.2.map Json.num))))

/-- Result of the `sub|…` branch of `callback_handler`: the store after the
call, whether the reply was "You will be notified …" (`newly = true`) or
"You are already subscribed" (`newly = false`), and whether
`save_subscriptions` was called (`saved`). -/
structure AddResult where
  store : Subs
  newly : Bool
  saved : Bool
deriving DecidableEq, Repr

/-- Result of the `unsub|…` branch of `callback_handler`: the store after
the call, whether the reply was "Unsubscribed from …" (`removed = true`) or
"You were not subscribed" (`removed = false`), and whether
`save_subscriptions` was called (`saved`). -/
structure RemoveResult where
  store : Subs
  removed : Bool
  saved : Bool
deriving DecidableEq, Repr

/-- The `action == "sub"` branch of `callback_handler`:
`subs = subscriptions.get(gpu_name, [])`; if the chat id is not in `subs`,
append it, store the list back, and persist; otherwise reply
"already subscribed" without touching the store or the file. -/
def callback_sub (store : Subs) (gpu_name : String) (chat_id : Int) : AddResult :=
  let subs := (dlookup store gpu_name).getD []
  if chat_id ∈ subs then ⟨store, false, false⟩
  else ⟨dinsert store gpu_name (subs ++ [chat_id]), true, true⟩

/-- The `action == "unsub"` branch of `callback_handler`:
`subs = subscriptions.get(gpu_name, [])`; if the chat id is in `subs`,
remove its first occurrence, store the list back when non-empty or pop the
key when empty, and persist; otherwise reply "You were not subscribed"
without touching the store or the file. -/
def callback_unsub (store : Subs) (gpu_name : String) (chat_id : Int) : RemoveResult :=
  let subs := (dlookup store gpu_name).getD []
  if chat_id ∈ subs then
    let subs' := subs.erase chat_id
    ⟨if subs' = [] then dremove store gpu_name else dinsert store gpu_name subs',
      true, true⟩
  else ⟨store, false, false⟩

/-- The spec's Subscription Set invariant: every resource id present in the
map carries a non-empty subscriber list. -/
def nonempty_inv (store : Subs) : Prop := ∀ p ∈ store, p.2 ≠ []

instance (store : Subs) : Decidable (nonempty_inv store) :=
  List.decidableBAll _ store

/-- `fetch_gpus`: the argument is `none` when the HTTP request fails, the
status is non-2xx (`raise_for_status`), or the body is not valid JSON — all
raise and are caught, returning `None`.  Otherwise it is `some body` for the
parsed JSON body, and the function returns `data.get("data", [])`; a body
that is not a dict makes `.get` raise `AttributeError`, also caught. -/
def fetch_gpus (response : Option Json) : Option Json :=
  match response with
  | none => none
  | some body =>
      match body with
      | .obj fields => some (jgetD fields "data" (Json.arr []))
      | _ => none

/-- `name = g.get("name")` for a GPU element's fields (`None` when absent). -/
def name_of (fields : List (String × Json)) : Json :=
  jgetD fields "name" Json.null

/-- `disp = g.get("display_name") or name`: Python `or` yields the left
operand when truthy, otherwise the right one. -/
def disp_of (fields : List (String × Json)) : Json :=
  let d := jgetD fields "display_name" Json.null
  if d.truthy then d else name_of fields

/-- `busy = bool(g.get("busy"))`: Python truthiness coercion, with an
absent field read as `None` (falsy). -/
def busy_of (fields : List (String × Json)) : Bool :=
  (jgetD fields "busy" Json.null).truthy

/-- The two dicts written while iterating the fetched list in
`poller_task`: the global `gpu_display_names` and the cycle-local
`current_states`. -/
structure Obs where
  displayNames : List (Json × Json)
  currentStates : List (Json × Bool)
deriving DecidableEq

/-- One iteration of `poller_task`'s per-element loop body:
`gpu_display_names[name] = disp; current_states[name] = busy`.
A non-dict element makes `g.get` raise, and an unhashable `name` (a list or
dict) makes the dict assignment raise; either exception propagates to the
cycle's outer `except`, carrying the display names written so far. -/
def processElem (acc : Obs) (g : Json) : Except (List (Json × Json)) Obs :=
  match g with
  | .obj fields =>
      if (name_of fields).hashable then
        .ok ⟨dinsert acc.displayNames (name_of fields) (disp_of fields),
             dinsert acc.currentStates (name_of fields) (busy_of fields)⟩
      else .error acc.displayNames
  | _ => .error acc.displayNames

/-- The whole `for g in gpus` loop of `poller_task`, stopping at the first
raising element. -/
def processElems (gpus : List Json) (acc : Obs) : Except (List (Json × Json)) Obs :=
  match gpus with
  | [] => .ok acc
  | g :: rest =>
      match processElem acc g with
      | .ok acc' => processElems rest acc'
      | .error dn => .error dn

/-- The transition-detection loop of `poller_task`: iterate
`current_states.items()` and keep the names with
`prev_states.get(name) is True and busy is False`. -/
def detect (prev curr : List (Json × Bool)) : List Json :=
  (curr.filter (fun p => (dlookup prev p.1 == some true) && (p.2 == false))).map
    Prod.fst

/-- `subscriptions.get(name, [])` as read by the poller: `name` is whatever
`g.get("name")` returned, and only a string can equal one of the store's
string keys. -/
def subsFor (subs : Subs) (name : Json) : List Int :=
  match name with
  | .str s => (dlookup subs s).getD []
  | _ => []

/-- One `app.bot.send_message` attempt: the recipient, the display name and
id interpolated into the message text, and whether the send succeeded
(`delivered = false` when it raised and was caught by the per-send
`except`). -/
structure SendAttempt where
  chat : Int
  dispName : Json
  gpuId : Json
  delivered : Bool
deriving DecidableEq

/-- The notification block for one transitioned GPU: iterate a copy of
`subscriptions.get(name, [])` and attempt one send per chat id.  `fails` is
the set of chat ids whose send raises this cycle.  The `if targets:` guard
only skips building the message text for an empty list and sends nothing
either way. -/
def dispatchOne (subs : Subs) (dn : List (Json × Json)) (fails : List Int)
    (name : Json) : List SendAttempt :=
  (subsFor subs name).map (fun c =>
    ⟨c, (dlookup dn name).getD name, name, !(fails.contains c)⟩)

/-- Python iteration `for g in gpus` over a JSON value: lists yield their
elements, strings their characters, dicts their keys; `None`, booleans and
numbers raise `TypeError`. -/
def pyIter : Json → Except Unit (List Json)
  | .arr xs => .ok xs
  | .str s => .ok (s.toList.map (fun c => Json.str (String.mk [c])))
  | .obj fs => .ok (fs.map (fun p => Json.str p.1))
  | _ => .error ()

/-- The poller's persistent state: the global `prev_states` and
`gpu_display_names` dicts. -/
structure PollState where
  prevStates : List (Json × Bool)
  displayNames : List (Json × Json)
deriving DecidableEq

/-- One iteration of `poller_task`'s `while True` loop (one poll cycle),
up to the final `asyncio.sleep`.  `fetched` is `fetch_gpus`'s return value,
`fails` the chat ids whose `send_message` raises this cycle.  Returns the
state after the cycle and the send attempts made.  `if gpus is None:
continue` skips the cycle; any exception in the loop body is caught by the
outer `except`, which keeps `prev_states` and whatever was already written
to `gpu_display_names`. -/
def poll_cycle (fetched : Option Json) (subs : Subs) (st : PollState)
    (fails : List Int) : PollState × List SendAttempt :=
  match fetched with
  | none => (st, [])
  | some j =>
      match pyIter j with
      | .error _ => (st, [])
      | .ok gpus =>
          match processElems gpus ⟨st.displayNames, []⟩ with
          | .error dn => (⟨st.prevStates, dn⟩, [])
          | .ok obs =>
              (⟨obs.currentStates, obs.displayNames⟩,
                (detect st.prevStates obs.currentStates).flatMap
                  (dispatchOne subs obs.displayNames fails))

/-- One rendered line of `/list`'s reply, reduced to the data interpolated
into it: the display value and the busy flag.  A non-dict element would
raise out of the handler (outside the modelled reply). -/
def render_gpu_line (g : Json) : Option (Json × Bool) :=
  match g with
  | .obj fields => some (disp_of fields, busy_of fields)
  | _ => none

/-- `list_gpus_command`: fetch, and on a falsy result (`None` or an empty
list — `if not gpus:`) reply "Failed to fetch GPU list"; otherwise render
one line per element.  Returns the `gpu_display_names` dict after the
command (the handler never writes to it) and the rendered lines (`none`
for the failure reply or a non-iterable fetch result, whose exception
leaves the cache untouched as well). -/
def list_gpus_command (fetched : Option Json) (dn : List (Json × Json)) :
    List (Json × Json) × Option (List (Option (Json × Bool))) :=
  match fetched with
  | none => (dn, none)
  | some j =>
      if j.truthy then
        match pyIter j with
        | .ok gpus => (dn, some (gpus.map render_gpu_line))
        | .error _ => (dn, none)
      else (dn, none)

/-- The name/display pair a well-formed element contributes to
`gpu_display_names`, `none` for an element that raises. -/
def elemNameDisp : Json → Option (Json × Json)
  | .obj fields =>
      if (name_of fields).hashable then some (name_of fields, disp_of fields)
      else none
  | _ => none

/-- Specification of "last-seen display name": the display value of the
last element of the fetched list carrying the given name. -/
def lastSeenDisp (gpus : List Json) (n : Json) : Option Json :=
  match gpus with
  | [] => none
  | g :: rest =>
      match lastSeenDisp rest n with
      | some d => some d
      | none =>
          match elemNameDisp g with
          | some (nm, d) => if nm = n then some d else none
          | none => none

/-- Left-biased choice on optional values. -/
def oor {α : Type} : Option α → Option α → Option α
  | some a, _ => some a
  | none, b => b

theorem omapM_py_int_map_num (l : List Int) :
    omapM py_int (l.map Json.num) = some l := by
  induction l with
  | nil => rfl
  | cons a as ih => simp [omapM, py_int, ih]

theorem parse_save (subs : Subs) :
    parse_subs (save_subscriptions subs) = some subs := by
  induction subs with
  | nil => rfl
  | cons p rest ih =>
      obtain ⟨k, l⟩ := p
      have h1 : parse_entry (k, Json.arr (l.map Json.num)) = some (k, l) := by
        simp [parse_entry, omapM_py_int_map_num]
      have h2 := ih
      simp only [save_subscriptions, parse_subs, List.map_cons] at h2 ⊢
      simp [omapM, h1, h2]

theorem load_save_eq (subs : Subs) :
    load_subscriptions (some (save_subscriptions subs)) = subs := by
  simp [load_subscriptions, parse_save]

/-- C1. Transition detection fires exactly on the busy→available edge: for
snapshots `P` (`prev_states`) and `C` (`current_states`, a dict, so with
distinct keys) and any resource id `r`, the detection loop of `poller_task`
selects `r` iff `P.get(r) is True` and `C[r] is False`; every other
combination of previous value (absent/`True`/`False`) and current value
(absent/`True`/`False`) — in particular a first observation, where `r` is
absent from `P` — is not selected. -/
theorem detect_busy_to_available (prev curr : List (Json × Bool)) (r : Json)
    (hnd : (curr.map Prod.fst).Nodup) :
    r ∈ detect prev curr ↔
      dlookup prev r = some true ∧ dlookup curr r = some false := by
  constructor
  · intro hr
    simp only [detect, List.mem_map, List.mem_filter, Bool.and_eq_true,
      beq_iff_eq] at hr
    obtain ⟨⟨rk, rb⟩, ⟨hmem, hprev, hb⟩, hfst⟩ := hr
    obtain rfl : rk = r := hfst
    obtain rfl : rb = false := hb
    exact ⟨hprev, (mem_iff_dlookup_of_nodup curr hnd rk false).mp hmem⟩
  · rintro ⟨hprev, hcurr⟩
    simp only [detect, List.mem_map, List.mem_filter, Bool.and_eq_true,
      beq_iff_eq]
    exact ⟨(r, false), ⟨(mem_iff_dlookup_of_nodup curr hnd r false).mpr hcurr,
      hprev, rfl⟩, rfl⟩

/-- Witness for C1 at the spec's Scenario 1: previous `{gpu1: true}`,
current `{gpu1: false}` puts `gpu1` in the transition set. -/
theorem detect_busy_to_available_witness :
    Json.str "gpu1" ∈ detect [(Json.str "gpu1", true)] [(Json.str "gpu1", false)] :=
  (detect_busy_to_available [(Json.str "gpu1", true)] [(Json.str "gpu1", false)]
    (Json.str "gpu1") (by decide)).mpr (by decide)

/-- C2. A failed fetch (`fetch_gpus` returns `None`) makes the cycle hit
`continue`: no diffing, no dispatching, no update — `prev_states` and
`gpu_display_names` are unchanged and no send is attempted. -/
theorem fetch_failure_skips_cycle (subs : Subs) (st : PollState)
    (fails : List Int) : poll_cycle none subs st fails = (st, []) := rfl

/-- C4. Subscribing is idempotent: under the store's no-duplicate shape
(at most one copy of the chat id per list, which every reachable store
satisfies), adding the same pair twice leaves the store of the first add
unchanged, the second call reports "already subscribed" (`newly = false`)
without saving, the first call on an unsubscribed pair reports "newly
subscribed" (`newly = true`), and afterwards the chat id occurs exactly
once in the resource's list. -/
theorem add_subscription_idempotent (store : Subs) (gpu : String) (chat : Int)
    (h : ((dlookup store gpu).getD []).count chat ≤ 1) :
    callback_sub (callback_sub store gpu chat).store gpu chat =
      ⟨(callback_sub store gpu chat).store, false, false⟩ ∧
    ((dlookup (callback_sub store gpu chat).store gpu).getD []).count chat = 1 ∧
    (chat ∉ (dlookup store gpu).getD [] →
      (callback_sub store gpu chat).newly = true) := by
  by_cases hc : chat ∈ (dlookup store gpu).getD []
  · have h1 : callback_sub store gpu chat = ⟨store, false, false⟩ := by
      simp [callback_sub, hc]
    rw [h1]
    refine ⟨by simp [callback_sub, hc], ?_, fun hn => absurd hc hn⟩
    exact Nat.le_antisymm h (List.count_pos_iff.mpr hc)
  · have h1 : callback_sub store gpu chat =
        ⟨dinsert store gpu (((dlookup store gpu).getD []) ++ [chat]), true, true⟩ := by
      simp [callback_sub, hc]
    have h2 : dlookup (dinsert store gpu (((dlookup store gpu).getD []) ++ [chat])) gpu
        = some (((dlookup store gpu).getD []) ++ [chat]) := by
      rw [dlookup_dinsert]; simp
    have h3 : chat ∈ ((dlookup store gpu).getD []) ++ [chat] := by simp
    rw [h1]
    refine ⟨by simp [callback_sub, h2, h3], ?_, fun _ => rfl⟩
    simp [h2, List.count_append, List.count_eq_zero.mpr hc]

/-- Witness for C4 at the spec's Scenario 5: `add("gpu1", 111)` twice on
the empty store. -/
theorem add_subscription_idempotent_witness :
    callback_sub (callback_sub [] "gpu1" 111).store "gpu1" 111 =
      ⟨(callback_sub [] "gpu1" 111).store, false, false⟩ ∧
    ((dlookup (callback_sub [] "gpu1" 111).store "gpu1").getD []).count 111 = 1 ∧
    (111 ∉ (dlookup ([] : Subs) "gpu1").getD [] →
      (callback_sub [] "gpu1" 111).newly = true) :=
  add_subscription_idempotent [] "gpu1" 111 (by decide)

/-- C6. Unsubscribing a pair that is not in the store replies "You were not
subscribed" (`removed = false`), leaves the in-memory store exactly as it
was, and does not call `save_subscriptions` (`saved = false`), so the file
is untouched as well. -/
theorem unsubscribe_absent_pair (store : Subs) (gpu : String) (chat : Int)
    (h : chat ∉ (dlookup store gpu).getD []) :
    callback_unsub store gpu chat = ⟨store, false, false⟩ := by
  simp [callback_unsub, h]

/-- Witness for C6: chat 222 is not subscribed to gpu1. -/
theorem unsubscribe_absent_pair_witness :
    callback_unsub [("gpu1", [111])] "gpu1" 222 = ⟨[("gpu1", [111])], false, false⟩ :=
  unsubscribe_absent_pair [("gpu1", [111])] "gpu1" 222 (by decide)

/-- C7. Round trip: saving any subscription mapping and loading the written
file reproduces it exactly — in particular the same keys, and per key the
same subscriber collection (hence set-equal per key). -/
theorem save_load_roundtrip (subs : Subs) :
    load_subscriptions (some (save_subscriptions subs)) = subs ∧
    (load_subscriptions (some (save_subscriptions subs))).map Prod.fst =
      subs.map Prod.fst ∧
    ∀ k, dlookup (load_subscriptions (some (save_subscriptions subs))) k =
      dlookup subs k := by
  simp [load_save_eq]

theorem dispatchOne_strip (subs : Subs) (dn : List (Json × Json))
    (fails : List Int) (name : Json) :
    (dispatchOne subs dn fails name).map (fun a => (a.chat, a.dispName, a.gpuId)) =
      (subsFor subs name).map (fun c => (c, (dlookup dn name).getD name, name)) := by
  simp [dispatchOne, List.map_map, Function.comp]

/-- C3. Dispatch isolation: each `send_message` is wrapped in its own
`try/except`, so whichever set of chat ids fails this cycle (`fails`), the
cycle's resulting state — including the replacement of `prev_states` by the
new snapshot — and the sequence of attempted deliveries (recipient, display
name, id) are identical to the failure-free run, and within one
transitioned resource every subscriber in the list is attempted. -/
theorem dispatch_isolation (fetched : Option Json) (subs : Subs)
    (st : PollState) (fails : List Int) :
    (poll_cycle fetched subs st fails).1 = (poll_cycle fetched subs st []).1 ∧
    (poll_cycle fetched subs st fails).2.map
        (fun a => (a.chat, a.dispName, a.gpuId)) =
      (poll_cycle fetched subs st []).2.map
        (fun a => (a.chat, a.dispName, a.gpuId)) ∧
    ∀ dn name, (dispatchOne subs dn fails name).map SendAttempt.chat =
      subsFor subs name := by
  refine ⟨?_, ?_, fun dn name => by
    simp [dispatchOne, List.map_map, Function.comp_def]⟩
  all_goals
    cases fetched with
    | none => rfl
    | some j =>
        cases hit : pyIter j with
        | error e => simp [poll_cycle, hit]
        | ok gpus =>
            cases hpe : processElems gpus ⟨st.displayNames, []⟩ with
            | error dn => simp [poll_cycle, hit, hpe]
            | ok obs => simp [poll_cycle, hit, hpe, List.map_flatMap,
                dispatchOne_strip]

/-- C5 counterexample: `load_subscriptions` does not prune empty lists, so
loading the file content `{"gpu1": []}` leaves `gpu1` mapped to the empty
subscriber list, violating the non-empty-set invariant at that concrete
input even though the claim names loading as an operation that never
leaves an empty entry. -/
theorem load_keeps_empty_entry :
    ¬ nonempty_inv (load_subscriptions
        (some (Json.obj [("gpu1", Json.arr [])]))) := by
  decide

/-- C5 amended: subscribing and unsubscribing preserve the non-empty-set
invariant (removing the last subscriber pops the whole entry), and loading
reproduces an invariant-satisfying store when the file was produced by
`save_subscriptions` from such a store; only loading a foreign file with an
explicit empty list can break the invariant. -/
theorem subscription_ops_preserve_inv (store : Subs) (gpu : String)
    (chat : Int) (h : nonempty_inv store) :
    nonempty_inv (callback_sub store gpu chat).store ∧
    nonempty_inv (callback_unsub store gpu chat).store ∧
    nonempty_inv (load_subscriptions (some (save_subscriptions store))) := by
  refine ⟨?_, ?_, by rw [load_save_eq]; exact h⟩
  · simp only [callback_sub]
    split
    · exact h
    · intro p hp
      rcases mem_dinsert _ _ _ _ hp with h' | h'
      · rw [h']; simp
      · exact h p h'
  · simp only [callback_unsub]
    split
    · split
      · intro p hp
        exact h p (mem_dremove _ _ _ hp)
      · next hne =>
          intro p hp
          rcases mem_dinsert _ _ _ _ hp with h' | h'
          · rw [h']; exact hne
          · exact h p h'
    · exact h

/-- Witness for C5 (amended) on a concrete invariant-satisfying store. -/
theorem subscription_ops_preserve_inv_witness :
    nonempty_inv (callback_sub [("gpu1", [111])] "gpu1" 222).store ∧
    nonempty_inv (callback_unsub [("gpu1", [111])] "gpu1" 222).store ∧
    nonempty_inv (load_subscriptions
      (some (save_subscriptions [("gpu1", [111])]))) :=
  subscription_ops_preserve_inv [("gpu1", [111])] "gpu1" 222 (by decide)

theorem processElems_dlookup (gpus : List Json) (acc : Obs) (obs : Obs)
    (n : Json) (h : processElems gpus acc = .ok obs) :
    dlookup obs.displayNames n =
      oor (lastSeenDisp gpus n) (dlookup acc.displayNames n) := by
  induction gpus generalizing acc with
  | nil =>
      simp only [processElems, Except.ok.injEq] at h
      rw [← h]
      simp [lastSeenDisp, oor]
  | cons g rest ih =>
      simp only [processElems] at h
      cases hg : processElem acc g with
      | error dn => rw [hg] at h; cases h
      | ok acc' =>
          rw [hg] at h
          have hrec := ih acc' h
          cases g with
          | obj fields =>
              simp only [processElem] at hg
              by_cases hh : (name_of fields).hashable
              · rw [if_pos hh] at hg
                obtain rfl : (⟨dinsert acc.displayNames (name_of fields)
                    (disp_of fields), dinsert acc.currentStates (name_of fields)
                    (busy_of fields)⟩ : Obs) = acc' := Except.ok.inj hg
                rw [hrec]
                simp only [dlookup_dinsert]
                simp only [lastSeenDisp, elemNameDisp, if_pos hh]
                cases hls : lastSeenDisp rest n with
                | some d => simp [oor, hls]
                | none =>
                    by_cases hn : name_of fields = n
                    · simp [oor, hls, hn]
                    · simp [oor, hls, hn, Ne.symm hn]
              · rw [if_neg hh] at hg
                cases hg
          | null => simp [processElem] at hg
          | bool b => simp [processElem] at hg
          | num m => simp [processElem] at hg
          | str s => simp [processElem] at hg
          | arr xs => simp [processElem] at hg

/-- C8 counterexample: `/list` (`list_gpus_command`) successfully fetches
and renders the element `{"name": "gpu1", "display_name": "A100",
"busy": false}` yet writes nothing to `gpu_display_names` — the cache still
lacks `gpu1` afterwards, contradicting the claim that the on-demand listing
command updates the cache for every resource it processes. -/
theorem list_command_cache_counterexample :
    (list_gpus_command (some (Json.arr [Json.obj [("name", Json.str "gpu1"),
        ("display_name", Json.str "A100"), ("busy", Json.bool false)]]))
      []).2 = some [some (Json.str "A100", false)] ∧
    dlookup (list_gpus_command (some (Json.arr [Json.obj
        [("name", Json.str "gpu1"), ("display_name", Json.str "A100"),
        ("busy", Json.bool false)]])) []).1 (Json.str "gpu1") = none := by
  decide

/-- C8 amended: the Display Name Cache is updated by the background poll
cycle — after a cycle whose element loop completes, the cache maps each
observed id to its last-seen display name, falling back to the prior cache
for unobserved ids — while the on-demand `/list` command never writes the
cache (the subscribe command's selection menu, not modelled here, is the
other writer in the source). -/
theorem display_cache_update (j : Json) (gpus : List Json) (subs : Subs)
    (st : PollState) (fails : List Int) (obs : Obs) (n : Json)
    (hiter : pyIter j = .ok gpus)
    (h : processElems gpus ⟨st.displayNames, []⟩ = .ok obs) :
    dlookup (poll_cycle (some j) subs st fails).1.displayNames n =
      oor (lastSeenDisp gpus n) (dlookup st.displayNames n) ∧
    ∀ fetched dn, (list_gpus_command fetched dn).1 = dn := by
  constructor
  · have hdn : (poll_cycle (some j) subs st fails).1.displayNames =
        obs.displayNames := by
      simp [poll_cycle, hiter, h]
    rw [hdn]
    exact processElems_dlookup gpus ⟨st.displayNames, []⟩ obs n h
  · intro fetched dn
    rcases fetched with _ | jj
    · rfl
    · simp only [list_gpus_command]
      split
      · split <;> rfl
      · rfl

/-- Witness for C8 (amended) on a concrete one-element poll. -/
theorem display_cache_update_witness :
    dlookup (poll_cycle (some (Json.arr [Json.obj [("name", Json.str "gpu1"),
        ("display_name", Json.str "A100"), ("busy", Json.bool false)]])) []
        ⟨[], []⟩ []).1.displayNames (Json.str "gpu1") =
      oor (lastSeenDisp [Json.obj [("name", Json.str "gpu1"),
        ("display_name", Json.str "A100"), ("busy", Json.bool false)]]
        (Json.str "gpu1")) (dlookup ([] : List (Json × Json)) (Json.str "gpu1")) ∧
    ∀ fetched dn, (list_gpus_command fetched dn).1 = dn :=
  display_cache_update (Json.arr [Json.obj [("name", Json.str "gpu1"),
      ("display_name", Json.str "A100"), ("busy", Json.bool false)]])
    [Json.obj [("name", Json.str "gpu1"), ("display_name", Json.str "A100"),
      ("busy", Json.bool false)]] [] ⟨[], []⟩ []
    ⟨[(Json.str "gpu1", Json.str "A100")], [(Json.str "gpu1", false)]⟩
    (Json.str "gpu1") rfl rfl

/-- C9 counterexample: with the fetched list `[42, {"name": "gpu1",
"busy": false}]`, the malformed first element makes `g.get("name")` raise;
the outer `except` aborts the whole cycle, so the well-formed `gpu1`
element is not processed and the snapshot update never happens —
`prev_states` stays empty instead of containing `gpu1`, contradicting the
claim that remaining well-formed elements are still processed and the
snapshot update completes. -/
theorem malformed_element_counterexample :
    (poll_cycle (some (Json.arr [Json.num 42,
        Json.obj [("name", Json.str "gpu1"), ("busy", Json.bool false)]]))
        [] ⟨[], []⟩ []).1.prevStates = [] ∧
    dlookup (poll_cycle (some (Json.arr [Json.num 42,
        Json.obj [("name", Json.str "gpu1"), ("busy", Json.bool false)]]))
        [] ⟨[], []⟩ []).1.prevStates (Json.str "gpu1") = none := by
  decide

/-- C9 amended: a malformed element does not propagate an exception out of
the poller (the outer `except` catches it), but it aborts the remainder of
the cycle rather than being skipped individually: no notification is sent,
`prev_states` is left unchanged, and only the display names written before
the raising element are retained. -/
theorem malformed_element_aborts_cycle (gpus : List Json) (subs : Subs)
    (st : PollState) (fails : List Int) (dn : List (Json × Json))
    (h : processElems gpus ⟨st.displayNames, []⟩ = .error dn) :
    poll_cycle (some (Json.arr gpus)) subs st fails = (⟨st.prevStates, dn⟩, []) := by
  simp [poll_cycle, pyIter, h]

/-- Witness for C9 (amended) at a concrete malformed payload. -/
theorem malformed_element_aborts_cycle_witness :
    poll_cycle (some (Json.arr [Json.num 42])) [] ⟨[], []⟩ [] = (⟨[], []⟩, []) :=
  malformed_element_aborts_cycle [Json.num 42] [] ⟨[], []⟩ [] [] rfl

/-- C10. A 2xx response whose JSON body is an object without a top-level
`"data"` field makes `fetch_gpus` return `data.get("data", [])`, i.e. the
empty list — a successful empty poll, not a Failure — and the subsequent
cycle replaces the whole `prev_states` snapshot with the empty mapping,
discarding every previously known resource state (and sending nothing). -/
theorem missing_data_field_empty_poll (fields : List (String × Json))
    (subs : Subs) (st : PollState) (fails : List Int)
    (h : dlookup fields "data" = none) :
    fetch_gpus (some (Json.obj fields)) = some (Json.arr []) ∧
    poll_cycle (fetch_gpus (some (Json.obj fields))) subs st fails =
      (⟨[], st.displayNames⟩, []) := by
  have h1 : fetch_gpus (some (Json.obj fields)) = some (Json.arr []) := by
    simp [fetch_gpus, jgetD, h]
  exact ⟨h1, by rw [h1]; rfl⟩

/-- Witness for C10 at a concrete body `{"other": 1}` and a non-trivial
prior snapshot. -/
theorem missing_data_field_empty_poll_witness :
    fetch_gpus (some (Json.obj [("other", Json.num 1)])) = some (Json.arr []) ∧
    poll_cycle (fetch_gpus (some (Json.obj [("other", Json.num 1)])))
        [("gpu1", [111])] ⟨[(Json.str "gpu1", true)], []⟩ [] =
      (⟨[], ([] : List (Json × Json))⟩, []) :=
  missing_data_field_empty_poll [("other", Json.num 1)] [("gpu1", [111])]
    ⟨[(Json.str "gpu1", true)], []⟩ [] (by decide)

end GpuMonitor
